import Mathlib

/-!
Shallow embedding of the mcp-stdio-http-proxy OAuth engine and request
forwarder, translated from the sources src/mcp-oauth-client.ts,
src/stdio-proxy.ts and src/types.ts, together with theorems settling the
specification claims about them.

The embedding keeps the control structure of the TypeScript source:
fallible calls become Except or Option results, external endpoints and the
random material produced by libraries become explicit oracle inputs, and a
run of a flow additionally returns the ordered list of external
interactions it performed, so that temporal claims become statements about
that event list.
-/

/-- Configuration record, from the Config interface in src/types.ts. -/
structure Config where
  clientId : String
  clientSecret : String
  redirectUri : String
  scopes : List String
  deriving DecidableEq

/-- OAuth token set as held by the provider: an access token plus an
optional refresh token. -/
structure OAuthTokens where
  access_token : String
  refresh_token : Option String
  deriving DecidableEq

/-- OAuth client information held by the provider. -/
structure ClientInfo where
  client_id : String
  client_secret : String
  deriving DecidableEq

/-- Protected resource metadata as consumed by McpOAuthClient.connect. -/
structure ResourceMetadata where
  authorization_servers : Option (List String)
  scopes_supported : Option (List String)
  deriving DecidableEq

/-- Outcome of one fetch of a well known metadata endpoint. The fetchThrow
constructor models the fetch call itself throwing; response carries the ok
flag (status 2xx) together with the result of parsing the body as JSON,
which is none when the body is not valid JSON. -/
inductive FetchOutcome (M : Type) where
  | fetchThrow : FetchOutcome M
  | response (ok : Bool) (body : Option M) : FetchOutcome M
  deriving DecidableEq

/-- Result of discoverOAuthMetadata as observed by its caller: the parsed
metadata document, a rejected JSON parse, or the final discovery error. -/
inductive DiscoverResult (M : Type) where
  | ok (m : M)
  | parseError
  | noMetadata
  deriving DecidableEq

/-- Model of discoverOAuthMetadata in src/mcp-oauth-client.ts. The OAuth
endpoint is fetched first. A throwing first fetch is caught by the outer
catch and leaves the metadata unset, so the OpenID endpoint is consulted
only after a non 2xx first response. A 2xx response hands its json()
promise to the caller unawaited, so a non JSON body surfaces to the caller
as a parse rejection rather than falling through to the other endpoint. -/
def discoverOAuthMetadata {M : Type} : FetchOutcome M → FetchOutcome M → DiscoverResult M
  | .fetchThrow, _ => .noMetadata
  | .response true (some m), _ => .ok m
  | .response true none, _ => .parseError
  | .response false _, .fetchThrow => .noMetadata
  | .response false _, .response true (some m) => .ok m
  | .response false _, .response true none => .parseError
  | .response false _, .response false _ => .noMetadata

/-- Discovery behaviour as the specification words it: return the body of
the first response in order that has a 2xx status and parses as JSON, and
fail with a discovery error exactly when neither endpoint yields such a
response. -/
def discoverOAuthMetadataSpec {M : Type} : FetchOutcome M → FetchOutcome M → DiscoverResult M
  | .response true (some m), _ => .ok m
  | _, .response true (some m) => .ok m
  | _, _ => .noMetadata

/-- Settlement state of the startOAuthServer promise. A JavaScript promise
settles at most once; later resolve or reject calls are ignored. -/
inductive PromiseState where
  | pending
  | resolvedOk
  | rejected (msg : String)
  deriving DecidableEq

/-- Resolve acts only on a pending promise. -/
def promiseResolve : PromiseState → PromiseState
  | .pending => .resolvedOk
  | s => s

/-- Reject acts only on a pending promise. -/
def promiseReject (msg : String) : PromiseState → PromiseState
  | .pending => .rejected msg
  | s => s

/-- Query parameters of a callback request: code, state and error, each
possibly absent. -/
structure CallbackQuery where
  code : Option String
  state : Option String
  error : Option String
  deriving DecidableEq

/-- JavaScript truthiness of an optional string query parameter: absent and
empty values are falsy. -/
def isTruthy : Option String → Bool
  | none => false
  | some s => s != ""

/-- State of the one shot OAuth callback server together with the provider
fields its handler touches: the stored CSRF state, the captured
authorization code, whether the server has been closed, and the
startOAuthServer promise. -/
structure OAuthServerState where
  storedState : Option String
  authorizationCode : Option String
  serverClosed : Bool
  promise : PromiseState
  deriving DecidableEq

/-- Model of the express callback handler installed by startOAuthServer:
first the error check, then the strict comparison of the returned state
with the stored one, then the code presence check. Every branch closes the
server, and only the success branch stores the authorization code. -/
def handleCallback (st : OAuthServerState) (q : CallbackQuery) : OAuthServerState :=
  if isTruthy q.error then
    { st with serverClosed := true, promise := promiseReject "OAuth error" st.promise }
  else if q.state != st.storedState then
    { st with serverClosed := true, promise := promiseReject "Invalid OAuth state" st.promise }
  else if !(isTruthy q.code) then
    { st with
        serverClosed := true
        promise := promiseReject "No authorization code received" st.promise }
  else
    { st with
        serverClosed := true
        authorizationCode := q.code
        promise := promiseResolve st.promise }

/-- A closed server accepts no further request; an open one dispatches to
the handler. -/
def serveRequest (st : OAuthServerState) (q : CallbackQuery) : Option OAuthServerState :=
  if st.serverClosed then none else some (handleCallback st q)

/-- Model of McpOAuthClient.waitForAuthorizationCode: the polling loop
resolves once a code is present on the provider and otherwise rejects
after the five minute timeout. -/
def waitForAuthorizationCode (st : OAuthServerState) : Except String String :=
  match st.authorizationCode with
  | some c => Except.ok c
  | none => Except.error "Authorization code timeout"

/-- Mutable fields of ProxyOAuthProvider. -/
structure ProviderState where
  tokens : Option OAuthTokens
  clientInfo : Option ClientInfo
  stateVal : Option String
  codeVerifier : Option String
  deriving DecidableEq

/-- Client information fabricated from the configuration, exactly as the
clientInformation accessor of the provider builds it when nothing is
cached. -/
def fabricatedClientInfo (cfg : Config) : ClientInfo :=
  { client_id := cfg.clientId, client_secret := cfg.clientSecret }

/-- Model of ProxyOAuthProvider.clientInformation: return the cached value
when present, and otherwise fabricate one from the configuration and cache
it. The declared return type is optional, but no branch returns none. -/
def clientInformation (p : ProviderState) (cfg : Config) : Option ClientInfo × ProviderState :=
  match p.clientInfo with
  | some ci => (some ci, p)
  | none =>
    let ci := fabricatedClientInfo cfg
    (some ci, { p with clientInfo := some ci })

/-- Model of ProxyOAuthProvider.state: memoized, a fresh value is taken
only when no value is cached. -/
def stateFn (p : ProviderState) (fresh : String) : String × ProviderState :=
  match p.stateVal with
  | some s => (s, p)
  | none => (fresh, { p with stateVal := some fresh })

/-- External interactions performed during a customAuth run, in order. -/
inductive AuthEvent where
  | discoverResourceMeta
  | discoverAuthMeta
  | registerCall
  | exchangeCall (code : String)
  | refreshCall (refreshToken : String)
  | authorizeCall (clientId : String) (scope : Option String) (state : String)
  | browserOpen
  deriving DecidableEq

/-- Faults customAuth can raise. -/
inductive AuthError where
  | discovery
  | metadataParse
  | missingClientInfo
  | noCodeVerifier
  | exchange
  deriving DecidableEq

/-- Value customAuth returns on success. -/
inductive AuthOutcome where
  | authorized
  | redirect
  deriving DecidableEq

/-- Options customAuth receives from connect. -/
structure AuthOptions where
  authorizationCode : Option String
  scope : String
  deriving DecidableEq

/-- Environment of one customAuth run: outcomes of the external endpoints
and the fresh random material the libraries would generate. -/
structure AuthOracle where
  oauthEndpoint : FetchOutcome String
  openidEndpoint : FetchOutcome String
  registerResult : ClientInfo
  exchangeResult : Option OAuthTokens
  refreshResult : Option OAuthTokens
  freshState : String
  freshVerifier : String
  deriving DecidableEq

/-- Result of a customAuth run: outcome, updated provider, event trace. -/
structure AuthResult where
  result : Except AuthError AuthOutcome
  provider : ProviderState
  events : List AuthEvent

/-- Continuation of customAuth that starts a new authorization flow: fetch
or reuse the CSRF state, build the authorization URL through
startAuthorization with the given scope (the empty scope string coerces to
an absent scope through the options fallback), save the freshly generated
code verifier, open the browser, and return the redirect signal. -/
def startAuthFlow (p : ProviderState) (opts : AuthOptions) (o : AuthOracle)
    (ev : List AuthEvent) (ci : ClientInfo) : AuthResult :=
  let sp := stateFn p o.freshState
  let scopeParam : Option String := if opts.scope = "" then none else some opts.scope
  let p2 := { sp.2 with codeVerifier := some o.freshVerifier }
  { result := Except.ok AuthOutcome.redirect
    provider := p2
    events := ev ++ [AuthEvent.authorizeCall ci.client_id scopeParam sp.1, AuthEvent.browserOpen] }

/-- Tail of customAuth after client information resolution: the exchange
branch when an authorization code was supplied, otherwise the refresh
shortcut, and finally the fresh authorization flow. -/
def customAuthAfterClient (p : ProviderState) (opts : AuthOptions) (o : AuthOracle)
    (ev : List AuthEvent) (ci : ClientInfo) : AuthResult :=
  match opts.authorizationCode with
  | some code =>
    match p.codeVerifier with
    | none => { result := Except.error AuthError.noCodeVerifier, provider := p, events := ev }
    | some _ =>
      match o.exchangeResult with
      | none =>
        { result := Except.error AuthError.exchange
          provider := p
          events := ev ++ [AuthEvent.exchangeCall code] }
      | some toks =>
        { result := Except.ok AuthOutcome.authorized
          provider := { p with tokens := some toks }
          events := ev ++ [AuthEvent.exchangeCall code] }
  | none =>
    match p.tokens with
    | some t =>
      match t.refresh_token with
      | some rt =>
        match o.refreshResult with
        | some toks =>
          { result := Except.ok AuthOutcome.authorized
            provider := { p with tokens := some toks }
            events := ev ++ [AuthEvent.refreshCall rt] }
        | none => startAuthFlow p opts o (ev ++ [AuthEvent.refreshCall rt]) ci
      | none => startAuthFlow p opts o ev ci
    | none => startAuthFlow p opts o ev ci

/-- Model of customAuth in src/mcp-oauth-client.ts: protected resource
discovery whose errors are ignored, authorization server metadata
discovery, client information resolution with the dynamic registration
branch for a missing value, then exchange, refresh shortcut, or a fresh
authorization flow. -/
def customAuth (p : ProviderState) (cfg : Config) (opts : AuthOptions) (o : AuthOracle) :
    AuthResult :=
  let ev0 : List AuthEvent := [AuthEvent.discoverResourceMeta, AuthEvent.discoverAuthMeta]
  match discoverOAuthMetadata o.oauthEndpoint o.openidEndpoint with
  | DiscoverResult.parseError =>
    { result := Except.error AuthError.metadataParse, provider := p, events := ev0 }
  | DiscoverResult.noMetadata =>
    { result := Except.error AuthError.discovery, provider := p, events := ev0 }
  | DiscoverResult.ok _ =>
    match clientInformation p cfg with
    | (none, p1) =>
      match opts.authorizationCode with
      | some _ =>
        { result := Except.error AuthError.missingClientInfo, provider := p1, events := ev0 }
      | none =>
        customAuthAfterClient { p1 with clientInfo := some o.registerResult } opts o
          (ev0 ++ [AuthEvent.registerCall]) o.registerResult
    | (some ci, p1) => customAuthAfterClient p1 opts o ev0 ci

/-- Scope selection in McpOAuthClient.connect: the configured scopes when
any are present, otherwise the scopes advertised by protected resource
discovery, otherwise the empty list. -/
def requestedScopes (cfg : Config) (rm : ResourceMetadata) : List String :=
  if cfg.scopes.length > 0 then cfg.scopes
  else
    match rm.scopes_supported with
    | some l => l
    | none => []

/-- Options connect passes to customAuth on its initial call: no
authorization code, and the requested scopes joined with single spaces. -/
def connectScopeOpts (cfg : Config) (rm : ResourceMetadata) : AuthOptions :=
  { authorizationCode := none
    scope := String.intercalate " " (requestedScopes cfg rm) }

/-- The part of McpOAuthClient.connect that follows a redirect signal: wait
for the captured authorization code, then run the exchange customAuth call
with it. A timeout propagates as an error and no further call is made. -/
def connectAfterRedirect (p : ProviderState) (cfg : Config) (scope : String)
    (o : AuthOracle) (st : OAuthServerState) : Except String AuthResult :=
  match waitForAuthorizationCode st with
  | Except.error e => Except.error e
  | Except.ok c =>
    Except.ok (customAuth p cfg { authorizationCode := some c, scope := scope } o)

/-- Codes sent to the token endpoint by exchange calls in a trace. -/
def exchangeCodes : List AuthEvent → List String
  | [] => []
  | AuthEvent.exchangeCall c :: tl => c :: exchangeCodes tl
  | _ :: tl => exchangeCodes tl

/-- Token endpoint exchange calls made by the post redirect part of
connect. -/
def tokenExchangeCalls (r : Except String AuthResult) : List String :=
  match r with
  | Except.error _ => []
  | Except.ok ar => exchangeCodes ar.events

/-- Number of dynamic client registration requests in a trace. -/
def countRegister : List AuthEvent → Nat
  | [] => 0
  | AuthEvent.registerCall :: tl => countRegister tl + 1
  | _ :: tl => countRegister tl

/-- Number of authorize endpoint URL constructions in a trace. -/
def countAuthorize : List AuthEvent → Nat
  | [] => 0
  | AuthEvent.authorizeCall _ _ _ :: tl => countAuthorize tl + 1
  | _ :: tl => countAuthorize tl

/-- Number of browser openings in a trace. -/
def countBrowser : List AuthEvent → Nat
  | [] => 0
  | AuthEvent.browserOpen :: tl => countBrowser tl + 1
  | _ :: tl => countBrowser tl

/-- Number of refresh grants sent to the token endpoint in a trace. -/
def countRefresh : List AuthEvent → Nat
  | [] => 0
  | AuthEvent.refreshCall _ :: tl => countRefresh tl + 1
  | _ :: tl => countRefresh tl

/-- CSRF states carried by the authorize URLs of a trace. -/
def authorizeStates : List AuthEvent → List String
  | [] => []
  | AuthEvent.authorizeCall _ _ s :: tl => s :: authorizeStates tl
  | _ :: tl => authorizeStates tl

/-- Scope parameters carried by the authorize URLs of a trace. -/
def authorizeScopes : List AuthEvent → List (Option String)
  | [] => []
  | AuthEvent.authorizeCall _ sc _ :: tl => sc :: authorizeScopes tl
  | _ :: tl => authorizeScopes tl

/-- Client identifiers carried by the authorize URLs of a trace. -/
def authorizeClientIds : List AuthEvent → List String
  | [] => []
  | AuthEvent.authorizeCall cid _ _ :: tl => cid :: authorizeClientIds tl
  | _ :: tl => authorizeClientIds tl

/-- True when no authorize endpoint interaction, URL construction or
browser opening, occurs before the first refresh grant of the trace. -/
def noAuthorizeBeforeRefresh : List AuthEvent → Bool
  | [] => true
  | AuthEvent.authorizeCall _ _ _ :: _ => false
  | AuthEvent.browserOpen :: _ => false
  | AuthEvent.refreshCall _ :: _ => true
  | _ :: tl => noAuthorizeBeforeRefresh tl

/-- Connection flags of the proxy stack: the stdio proxy gate flag, the
connected flag of the OAuth client, and whether an upstream client object
is currently held. -/
structure ProxyState where
  proxyConnected : Bool
  oauthConnected : Bool
  hasClient : Bool
  deriving DecidableEq

/-- State of a freshly constructed McpStdioProxy. -/
def initialProxyState : ProxyState :=
  { proxyConnected := false, oauthConnected := false, hasClient := false }

/-- The connected getter of McpStdioProxy composed with the connected
getter of McpOAuthClient. -/
def connectedGetter (st : ProxyState) : Bool :=
  st.proxyConnected && (st.oauthConnected && st.hasClient)

/-- Model of McpStdioProxy.start after a successful OAuth flow: the
upstream client object is assigned before its connect call is awaited, so
a failing connect leaves the object held while both connected flags remain
false, the catch of start having cleared the gate flag. -/
def startAttempt (mcpConnectOk : Bool) (st : ProxyState) : ProxyState :=
  if mcpConnectOk then { proxyConnected := true, oauthConnected := true, hasClient := true }
  else { st with hasClient := true, oauthConnected := false, proxyConnected := false }

/-- Results the upstream MCP client would return for each forwarded
operation, each possibly a fault. -/
structure Upstream where
  listToolsR : Except String (List String)
  callToolR : Except String String
  listResourcesR : Except String (List String)
  readResourceR : Except String String
  listPromptsR : Except String (List String)
  getPromptR : Except String String

/-- Observable outcome of one inbound request handled by the proxy. -/
inductive ProxyResult where
  | okTools (ts : List String)
  | okToolResult (r : String)
  | okResources (rs : List String)
  | okResourceResult (r : String)
  | okPrompts (ps : List String)
  | okPromptResult (r : String)
  | okInit
  | errProxyNotConnected
  | errClientNotConnected
  | errUpstream (e : String)
  deriving DecidableEq

/-- Recognizes both of the not connected rejections. -/
def isNotConnectedError : ProxyResult → Bool
  | ProxyResult.errProxyNotConnected => true
  | ProxyResult.errClientNotConnected => true
  | _ => false

/-- Handler for list_tools: ensureConnected runs inside the try, and every
failure is swallowed into an empty tool list. The second component counts
upstream calls performed. -/
def handleListTools (st : ProxyState) (up : Upstream) : ProxyResult × Nat :=
  if !st.proxyConnected then (ProxyResult.okTools [], 0)
  else if !st.hasClient then (ProxyResult.okTools [], 0)
  else
    match up.listToolsR with
    | Except.ok ts => (ProxyResult.okTools ts, 1)
    | Except.error _ => (ProxyResult.okTools [], 1)

/-- Handler for call_tool: ensureConnected inside the try, and the catch
rethrows, so faults propagate to the inbound caller. -/
def handleCallTool (st : ProxyState) (up : Upstream) : ProxyResult × Nat :=
  if !st.proxyConnected then (ProxyResult.errProxyNotConnected, 0)
  else if !st.hasClient then (ProxyResult.errClientNotConnected, 0)
  else
    match up.callToolR with
    | Except.ok r => (ProxyResult.okToolResult r, 1)
    | Except.error e => (ProxyResult.errUpstream e, 1)

/-- Handler for list_resources: the source performs no gate check here;
only the null check inside McpOAuthClient.listResources guards the
upstream call, and failures collapse to an empty list. -/
def handleListResources (st : ProxyState) (up : Upstream) : ProxyResult × Nat :=
  if !st.hasClient then (ProxyResult.okResources [], 0)
  else
    match up.listResourcesR with
    | Except.ok rs => (ProxyResult.okResources rs, 1)
    | Except.error _ => (ProxyResult.okResources [], 1)

/-- Handler for read_resource: no gate check in the source; the null check
throws a not connected error and upstream faults propagate. -/
def handleReadResource (st : ProxyState) (up : Upstream) : ProxyResult × Nat :=
  if !st.hasClient then (ProxyResult.errClientNotConnected, 0)
  else
    match up.readResourceR with
    | Except.ok r => (ProxyResult.okResourceResult r, 1)
    | Except.error e => (ProxyResult.errUpstream e, 1)

/-- Handler for list_prompts: like list_resources. -/
def handleListPrompts (st : ProxyState) (up : Upstream) : ProxyResult × Nat :=
  if !st.hasClient then (ProxyResult.okPrompts [], 0)
  else
    match up.listPromptsR with
    | Except.ok ps => (ProxyResult.okPrompts ps, 1)
    | Except.error _ => (ProxyResult.okPrompts [], 1)

/-- Handler for get_prompt: like read_resource. -/
def handleGetPrompt (st : ProxyState) (up : Upstream) : ProxyResult × Nat :=
  if !st.hasClient then (ProxyResult.errClientNotConnected, 0)
  else
    match up.getPromptR with
    | Except.ok r => (ProxyResult.okPromptResult r, 1)
    | Except.error e => (ProxyResult.errUpstream e, 1)

/-- Handler for the initialize handshake: answers the static capability
declaration of the proxy with no gate check and no upstream call. -/
def handleInitRequest (_st : ProxyState) : ProxyResult × Nat :=
  (ProxyResult.okInit, 0)

/-- Shutdown steps in the order they run. -/
inductive StopEvent where
  | setFlagFalse
  | clientClose
  | serverClose
  deriving DecidableEq

/-- Result of a shutdown run: final state, ordered steps, and the error
reaching the caller, if any. -/
structure StopOutcome where
  state : ProxyState
  events : List StopEvent
  thrown : Option String
  deriving DecidableEq

/-- Model of McpOAuthClient.disconnect: close the upstream client when one
is held (a close failure propagates before the fields are cleared), then
clear the client and the connected flag. -/
def disconnectRun (st : ProxyState) (clientCloseOk : Bool) : StopOutcome :=
  if st.hasClient then
    if clientCloseOk then
      { state := { st with hasClient := false, oauthConnected := false }
        events := [StopEvent.clientClose]
        thrown := none }
    else
      { state := st, events := [StopEvent.clientClose], thrown := some "client close failed" }
  else { state := { st with oauthConnected := false }, events := [], thrown := none }

/-- Body of McpStdioProxy.stop before its catch: clear the gate flag first,
then disconnect from the MCP server, then close the stdio server. -/
def stopBody (st : ProxyState) (clientCloseOk serverCloseOk : Bool) : StopOutcome :=
  let st1 := { st with proxyConnected := false }
  let d := disconnectRun st1 clientCloseOk
  match d.thrown with
  | some e => { state := d.state, events := StopEvent.setFlagFalse :: d.events, thrown := some e }
  | none =>
    { state := d.state
      events := StopEvent.setFlagFalse :: d.events ++ [StopEvent.serverClose]
      thrown := if serverCloseOk then none else some "server close failed" }

/-- Model of McpStdioProxy.stop: the whole body runs inside a try whose
catch only logs, so no error ever reaches the caller. -/
def stopRun (st : ProxyState) (clientCloseOk serverCloseOk : Bool) : StopOutcome :=
  let b := stopBody st clientCloseOk serverCloseOk
  { state := b.state, events := b.events, thrown := none }

/-- Token set fixture holding a refresh token. -/
def sampleTokens : OAuthTokens :=
  { access_token := "at0", refresh_token := some "rt0" }

/-- Provider state of a freshly constructed ProxyOAuthProvider. -/
def initialProvider : ProviderState :=
  { tokens := none, clientInfo := none, stateVal := none, codeVerifier := none }

/-- Provider state holding tokens with a refresh token. -/
def refreshProvider : ProviderState :=
  { tokens := some sampleTokens, clientInfo := none, stateVal := none, codeVerifier := none }

/-- Configuration fixture with static credentials and one scope. -/
def sampleConfig : Config :=
  { clientId := "cid"
    clientSecret := ""
    redirectUri := "http://localhost:3000/oauth/callback"
    scopes := ["mcp.read"] }

/-- Configuration fixture supplying no static client credentials and no
scopes. -/
def noCredsConfig : Config :=
  { clientId := ""
    clientSecret := ""
    redirectUri := "http://localhost:3000/oauth/callback"
    scopes := [] }

/-- Resource metadata fixture advertising an empty scope list. -/
def emptyScopesMeta : ResourceMetadata :=
  { authorization_servers := some ["https://as.example"], scopes_supported := some [] }

/-- Resource metadata fixture from the specification scenario. -/
def specScopesMeta : ResourceMetadata :=
  { authorization_servers := some ["https://idp.example/tenant"]
    scopes_supported := some ["read", "write"] }

/-- Oracle fixture with a healthy authorization server, parameterized by
the fresh state and verifier values. -/
def goodOracle (s v : String) : AuthOracle :=
  { oauthEndpoint := FetchOutcome.response true (some "md")
    openidEndpoint := FetchOutcome.response false none
    registerResult := { client_id := "reg", client_secret := "" }
    exchangeResult := some { access_token := "at1", refresh_token := some "rt1" }
    refreshResult := some { access_token := "at2", refresh_token := some "rt2" }
    freshState := s
    freshVerifier := v }

/-- Options fixture for an initial connection attempt. -/
def attemptOpts : AuthOptions :=
  { authorizationCode := none, scope := "mcp.read" }

/-- Callback server state fixture after the listener has started: its
startup promise is already resolved. -/
def deniedServerState : OAuthServerState :=
  { storedState := some "s0"
    authorizationCode := none
    serverClosed := false
    promise := promiseResolve PromiseState.pending }

/-- Callback request fixture carrying an explicit denial. -/
def deniedQuery : CallbackQuery :=
  { code := none, state := some "s0", error := some "access_denied" }

/-- Callback server state fixture for the state mismatch scenario. -/
def mismatchServerState : OAuthServerState :=
  { storedState := some "s0"
    authorizationCode := none
    serverClosed := false
    promise := promiseResolve PromiseState.pending }

/-- Callback request fixture whose returned state differs from the stored
one. -/
def mismatchQuery : CallbackQuery :=
  { code := some "abc123", state := some "sX", error := none }

/-- Upstream fixture where every operation succeeds. -/
def sampleUpstream : Upstream :=
  { listToolsR := Except.ok ["t1"]
    callToolR := Except.ok "tr"
    listResourcesR := Except.ok ["r1"]
    readResourceR := Except.ok "rr"
    listPromptsR := Except.ok ["p1"]
    getPromptR := Except.ok "pr" }

/-- Auxiliary: registration count distributes over trace concatenation. -/
theorem countRegister_append (l1 l2 : List AuthEvent) :
    countRegister (l1 ++ l2) = countRegister l1 + countRegister l2 := by
  induction l1 with
  | nil => simp [countRegister]
  | cons h tl ih =>
    cases h <;> simp [countRegister, ih]
    omega

/-- C9: the callback listener is single shot. Every request on the
callback path, malformed ones included, leaves the server closed, and a
closed server never serves a second request. -/
theorem callback_single_shot (st : OAuthServerState) (q q2 : CallbackQuery) :
    (handleCallback st q).serverClosed = true ∧
    serveRequest (handleCallback st q) q2 = none := by
  have h : (handleCallback st q).serverClosed = true := by
    unfold handleCallback
    split
    · rfl
    · split
      · rfl
      · split
        · rfl
        · rfl
  exact ⟨h, by simp [serveRequest, h]⟩

/-- C4: at the failing input, a callback carrying error access_denied that
arrives after the listener startup promise has resolved. The denial
rejection is a no-op on the settled promise, so no denial fault reaches
the caller; the code stays absent, the wait for the authorization code
rejects with the timeout message instead, and the subsequent exchange call
of connect is never made, leaving the gate closed. -/
theorem callback_error_param_timeout_behavior :
    (handleCallback deniedServerState deniedQuery).promise = PromiseState.resolvedOk ∧
    (handleCallback deniedServerState deniedQuery).serverClosed = true ∧
    (handleCallback deniedServerState deniedQuery).authorizationCode = none ∧
    waitForAuthorizationCode (handleCallback deniedServerState deniedQuery) =
      Except.error "Authorization code timeout" ∧
    connectAfterRedirect initialProvider sampleConfig "mcp.read" (goodOracle "s1" "v1")
        (handleCallback deniedServerState deniedQuery) =
      Except.error "Authorization code timeout" := by
  refine ⟨rfl, rfl, rfl, rfl, rfl⟩

/-- C6 counterexample: the OAuth endpoint answers 2xx with a body that is
not JSON while the OpenID endpoint would answer 2xx with valid JSON. The
source rejects with a parse error instead of returning the second body, so
the claimed behaviour fails at this input. -/
theorem discovery_parse_error_counterexample :
    discoverOAuthMetadata (FetchOutcome.response true (none : Option String))
        (FetchOutcome.response true (some "md2")) = DiscoverResult.parseError ∧
    discoverOAuthMetadataSpec (FetchOutcome.response true (none : Option String))
        (FetchOutcome.response true (some "md2")) = DiscoverResult.ok "md2" ∧
    (DiscoverResult.parseError : DiscoverResult String) ≠ DiscoverResult.ok "md2" := by
  refine ⟨rfl, rfl, by decide⟩

/-- C6 amended: the OAuth endpoint is requested first; a 2xx response has
its body parsed and returned, a parse failure propagating as a parse error
without consulting the OpenID endpoint. The OpenID endpoint is consulted
only after a non 2xx first response, behaving likewise. A discovery error
is raised when the first fetch throws, or when the first response is non
2xx and the second fetch throws or is not a 2xx response. -/
theorem discovery_metadata_behavior (m m2 : String) (b b2 : Option String) :
    (∀ e2 : FetchOutcome String,
      discoverOAuthMetadata (FetchOutcome.response true (some m)) e2 = DiscoverResult.ok m) ∧
    (∀ e2 : FetchOutcome String,
      discoverOAuthMetadata FetchOutcome.fetchThrow e2 = DiscoverResult.noMetadata) ∧
    (∀ e2 : FetchOutcome String,
      discoverOAuthMetadata (FetchOutcome.response true none) e2 = DiscoverResult.parseError) ∧
    discoverOAuthMetadata (FetchOutcome.response false b)
        (FetchOutcome.response true (some m2)) = DiscoverResult.ok m2 ∧
    discoverOAuthMetadata (FetchOutcome.response false b)
        (FetchOutcome.response true none) = DiscoverResult.parseError ∧
    discoverOAuthMetadata (FetchOutcome.response false b)
        FetchOutcome.fetchThrow = DiscoverResult.noMetadata ∧
    discoverOAuthMetadata (FetchOutcome.response false b)
        (FetchOutcome.response false b2) = DiscoverResult.noMetadata := by
  refine ⟨?_, ?_, ?_, rfl, rfl, rfl, rfl⟩
  · intro e2; rfl
  · intro e2; rfl
  · intro e2; rfl

/-- C10: stop never lets an error reach the caller, clears the gate flag
as its first step before any close call, and leaves both the flag and the
connected getter false for every combination of close failures. -/
theorem stop_shutdown_atomic (st : ProxyState) (cOk sOk : Bool) :
    (stopRun st cOk sOk).thrown = none ∧
    (stopRun st cOk sOk).state.proxyConnected = false ∧
    connectedGetter (stopRun st cOk sOk).state = false ∧
    (stopRun st cOk sOk).events.head? = some StopEvent.setFlagFalse := by
  obtain ⟨pc, oc, hc⟩ := st
  cases pc <;> cases oc <;> cases hc <;> cases cOk <;> cases sOk
  all_goals exact ⟨rfl, rfl, rfl, rfl⟩

/-- Auxiliary: the tail of customAuth after client resolution issues no
registration request beyond those already in the accumulated trace. -/
theorem countRegister_afterClient (p : ProviderState) (opts : AuthOptions) (o : AuthOracle)
    (ev : List AuthEvent) (ci : ClientInfo) :
    countRegister (customAuthAfterClient p opts o ev ci).events = countRegister ev := by
  cases hoc : opts.authorizationCode with
  | some code =>
    cases hv : p.codeVerifier with
    | none => simp [customAuthAfterClient, hoc, hv, countRegister]
    | some v =>
      cases he : o.exchangeResult with
      | none => simp [customAuthAfterClient, hoc, hv, he, countRegister_append, countRegister]
      | some toks => simp [customAuthAfterClient, hoc, hv, he, countRegister_append, countRegister]
  | none =>
    cases htok : p.tokens with
    | some t =>
      cases hrt : t.refresh_token with
      | some rt =>
        cases hr : o.refreshResult with
        | some toks =>
          simp [customAuthAfterClient, hoc, htok, hrt, hr, countRegister_append, countRegister]
        | none =>
          simp [customAuthAfterClient, startAuthFlow, hoc, htok, hrt, hr,
            countRegister_append, countRegister]
      | none =>
        simp [customAuthAfterClient, startAuthFlow, hoc, htok, hrt,
          countRegister_append, countRegister]
    | none =>
      simp [customAuthAfterClient, startAuthFlow, hoc, htok,
        countRegister_append, countRegister]

/-- C7 counterexample: with no static client credentials (empty client id
and secret) and a healthy authorization server, a full customAuth run
issues zero registration requests, because the provider fabricates client
information from the configuration unconditionally, and the fabricated
empty client id is what reaches the authorize URL. -/
theorem no_dynamic_registration_counterexample :
    noCredsConfig.clientId = "" ∧
    countRegister (customAuth initialProvider noCredsConfig
        { authorizationCode := none, scope := "" } (goodOracle "s1" "v1")).events = 0 ∧
    authorizeClientIds (customAuth initialProvider noCredsConfig
        { authorizationCode := none, scope := "" } (goodOracle "s1" "v1")).events = [""] :=
  ⟨rfl, rfl, rfl⟩

/-- C7 amended: registration is unreachable for every input because the
clientInformation accessor always yields a value, and on a fresh provider
the credentials cached and carried into the authorize URL are exactly the
configured ones, unchanged. -/
theorem client_credentials_always_config :
    (∀ (p : ProviderState) (cfg : Config) (opts : AuthOptions) (o : AuthOracle),
      countRegister (customAuth p cfg opts o).events = 0) ∧
    (∀ cfg : Config,
      authorizeClientIds (customAuth initialProvider cfg attemptOpts
          (goodOracle "s1" "v1")).events = [cfg.clientId] ∧
      (customAuth initialProvider cfg attemptOpts
          (goodOracle "s1" "v1")).provider.clientInfo = some (fabricatedClientInfo cfg)) := by
  constructor
  · intro p cfg opts o
    cases hd : discoverOAuthMetadata o.oauthEndpoint o.openidEndpoint with
    | parseError => simp [customAuth, hd, countRegister]
    | noMetadata => simp [customAuth, hd, countRegister]
    | ok m =>
      cases hc : p.clientInfo with
      | some ci =>
        simp [customAuth, hd, clientInformation, hc, countRegister_afterClient, countRegister]
      | none =>
        simp [customAuth, hd, clientInformation, hc, countRegister_afterClient, countRegister]
  · intro cfg
    exact ⟨rfl, rfl⟩

/-- C5 counterexample: two consecutive authorization attempts inside one
process. The fresh value offered for the second attempt differs from the
first, yet the CSRF state carried by the second authorize URL equals the
state of the first attempt, because ProxyOAuthProvider.state memoizes. -/
theorem csrf_state_reused_counterexample :
    authorizeStates (customAuth initialProvider sampleConfig attemptOpts
        (goodOracle "s1" "v1")).events = ["s1"] ∧
    authorizeStates (customAuth (customAuth initialProvider sampleConfig attemptOpts
        (goodOracle "s1" "v1")).provider sampleConfig attemptOpts
        (goodOracle "s2" "v2")).events = ["s1"] ∧
    ("s1" : String) ≠ "s2" :=
  ⟨rfl, rfl, by decide⟩

/-- C5 amended: across two attempts of one process the code verifier is
overwritten with the freshly generated value on each attempt, while the
CSRF state is generated once on the first attempt and reused unchanged by
the second. -/
theorem state_memoized_verifier_fresh (s1 v1 s2 v2 : String) :
    (customAuth initialProvider sampleConfig attemptOpts
        (goodOracle s1 v1)).provider.codeVerifier = some v1 ∧
    authorizeStates (customAuth initialProvider sampleConfig attemptOpts
        (goodOracle s1 v1)).events = [s1] ∧
    (customAuth (customAuth initialProvider sampleConfig attemptOpts
        (goodOracle s1 v1)).provider sampleConfig attemptOpts
        (goodOracle s2 v2)).provider.codeVerifier = some v2 ∧
    authorizeStates (customAuth (customAuth initialProvider sampleConfig attemptOpts
        (goodOracle s1 v1)).provider sampleConfig attemptOpts
        (goodOracle s2 v2)).events = [s1] :=
  ⟨rfl, rfl, rfl, rfl⟩

/-- C1: a callback whose returned state differs from the stored CSRF state
never stores the authorization code, so in a fresh attempt the wait for
the code times out, the exchange step of connect is never entered, and the
token endpoint receives zero exchange calls. -/
theorem callback_state_mismatch_aborts_before_exchange
    (st : OAuthServerState) (q : CallbackQuery)
    (hfresh : st.authorizationCode = none)
    (hmism : q.state ≠ st.storedState) :
    (handleCallback st q).authorizationCode = none ∧
    (∀ (p : ProviderState) (cfg : Config) (sc : String) (o : AuthOracle),
      connectAfterRedirect p cfg sc o (handleCallback st q) =
        Except.error "Authorization code timeout" ∧
      tokenExchangeCalls (connectAfterRedirect p cfg sc o (handleCallback st q)) = []) := by
  have hb : (q.state != st.storedState) = true := by
    simp [bne_iff_ne, hmism]
  have hcode : (handleCallback st q).authorizationCode = none := by
    unfold handleCallback
    cases he : isTruthy q.error with
    | true => simp [he, hfresh]
    | false => simp [he, hb, hfresh]
  refine ⟨hcode, ?_⟩
  intro p cfg sc o
  constructor
  · simp [connectAfterRedirect, waitForAuthorizationCode, hcode]
  · simp [tokenExchangeCalls, connectAfterRedirect, waitForAuthorizationCode, hcode]

/-- C1 witness: the mismatch scenario at a concrete server state and
request. -/
theorem callback_state_mismatch_aborts_before_exchange_witness :
    mismatchServerState.authorizationCode = none ∧
    mismatchQuery.state ≠ mismatchServerState.storedState ∧
    ((handleCallback mismatchServerState mismatchQuery).authorizationCode = none ∧
     (∀ (p : ProviderState) (cfg : Config) (sc : String) (o : AuthOracle),
       connectAfterRedirect p cfg sc o (handleCallback mismatchServerState mismatchQuery) =
         Except.error "Authorization code timeout" ∧
       tokenExchangeCalls (connectAfterRedirect p cfg sc o
           (handleCallback mismatchServerState mismatchQuery)) = [])) :=
  ⟨rfl, by decide,
    callback_state_mismatch_aborts_before_exchange mismatchServerState mismatchQuery rfl
      (by decide)⟩

/-- C2 counterexample: after a start attempt in which the upstream connect
call fails, the client object is held while both connected flags are
false. The gate is closed, yet list_resources forwards upstream (one call
instead of zero, relaying the upstream list instead of an empty one) and
read_resource relays instead of rejecting with a not connected error. -/
theorem forwarding_gate_counterexample :
    (startAttempt false initialProxyState).proxyConnected = false ∧
    connectedGetter (startAttempt false initialProxyState) = false ∧
    (handleListResources (startAttempt false initialProxyState) sampleUpstream).2 = 1 ∧
    (handleListResources (startAttempt false initialProxyState) sampleUpstream).1 =
      ProxyResult.okResources ["r1"] ∧
    (handleReadResource (startAttempt false initialProxyState) sampleUpstream).1 =
      ProxyResult.okResourceResult "rr" ∧
    isNotConnectedError
      (handleReadResource (startAttempt false initialProxyState) sampleUpstream).1 = false :=
  ⟨rfl, rfl, rfl, rfl, rfl, rfl⟩

/-- C2 amended: call_tool and list_tools consult the gate flag, so while
it is false call_tool rejects not connected and list_tools returns an
empty list, with no upstream call. The four remaining forwarding
operations consult only the presence of the upstream client object: when
none is held, read_resource and get_prompt reject not connected while
list_resources and list_prompts return empty results, again with no
upstream call; the initialize handshake never checks the gate and never
calls upstream. -/
theorem forwarding_ops_gate_behavior (st : ProxyState) (up : Upstream) :
    (st.proxyConnected = false →
      handleCallTool st up = (ProxyResult.errProxyNotConnected, 0) ∧
      handleListTools st up = (ProxyResult.okTools [], 0)) ∧
    (st.hasClient = false →
      handleListResources st up = (ProxyResult.okResources [], 0) ∧
      handleListPrompts st up = (ProxyResult.okPrompts [], 0) ∧
      handleReadResource st up = (ProxyResult.errClientNotConnected, 0) ∧
      handleGetPrompt st up = (ProxyResult.errClientNotConnected, 0)) ∧
    handleInitRequest st = (ProxyResult.okInit, 0) := by
  refine ⟨?_, ?_, rfl⟩
  · intro h
    exact ⟨by simp [handleCallTool, h], by simp [handleListTools, h]⟩
  · intro h
    exact ⟨by simp [handleListResources, h], by simp [handleListPrompts, h],
      by simp [handleReadResource, h], by simp [handleGetPrompt, h]⟩

/-- C2 witness: the closed gate behaviour at the freshly constructed proxy
state. -/
theorem forwarding_ops_gate_behavior_witness :
    initialProxyState.proxyConnected = false ∧
    initialProxyState.hasClient = false ∧
    handleCallTool initialProxyState sampleUpstream = (ProxyResult.errProxyNotConnected, 0) ∧
    handleListResources initialProxyState sampleUpstream = (ProxyResult.okResources [], 0) :=
  ⟨rfl, rfl,
    ((forwarding_ops_gate_behavior initialProxyState sampleUpstream).1 rfl).1,
    ((forwarding_ops_gate_behavior initialProxyState sampleUpstream).2.1 rfl).1⟩

/-- C3: with a refresh token in the token store and no authorization code,
the refresh grant precedes any authorize endpoint interaction in every
trace; when metadata discovery succeeds, a successful refresh yields
AUTHORIZED with zero authorize URL constructions and zero browser
openings, and a failed refresh continues into the redirect flow with one
authorize interaction instead of failing the attempt. -/
theorem refresh_token_fast_path
    (p : ProviderState) (cfg : Config) (opts : AuthOptions) (o : AuthOracle)
    (t : OAuthTokens) (rt : String)
    (htok : p.tokens = some t) (hrt : t.refresh_token = some rt)
    (hcode : opts.authorizationCode = none) :
    noAuthorizeBeforeRefresh (customAuth p cfg opts o).events = true ∧
    (∀ m : String,
      discoverOAuthMetadata o.oauthEndpoint o.openidEndpoint = DiscoverResult.ok m →
      ((∀ tk : OAuthTokens, o.refreshResult = some tk →
        (customAuth p cfg opts o).result = Except.ok AuthOutcome.authorized ∧
        countAuthorize (customAuth p cfg opts o).events = 0 ∧
        countBrowser (customAuth p cfg opts o).events = 0 ∧
        countRefresh (customAuth p cfg opts o).events = 1) ∧
      (o.refreshResult = none →
        (customAuth p cfg opts o).result = Except.ok AuthOutcome.redirect ∧
        countAuthorize (customAuth p cfg opts o).events = 1 ∧
        countRefresh (customAuth p cfg opts o).events = 1))) := by
  cases hdc : discoverOAuthMetadata o.oauthEndpoint o.openidEndpoint with
  | parseError =>
    have hev : customAuth p cfg opts o =
        { result := Except.error AuthError.metadataParse
          provider := p
          events := [AuthEvent.discoverResourceMeta, AuthEvent.discoverAuthMeta] } := by
      simp [customAuth, hdc]
    rw [hev]
    refine ⟨rfl, ?_⟩
    intro m hm
    simp at hm
  | noMetadata =>
    have hev : customAuth p cfg opts o =
        { result := Except.error AuthError.discovery
          provider := p
          events := [AuthEvent.discoverResourceMeta, AuthEvent.discoverAuthMeta] } := by
      simp [customAuth, hdc]
    rw [hev]
    refine ⟨rfl, ?_⟩
    intro m hm
    simp at hm
  | ok m0 =>
    have hstep : ∃ (ci : ClientInfo) (p1 : ProviderState), p1.tokens = p.tokens ∧
        customAuth p cfg opts o = customAuthAfterClient p1 opts o
          [AuthEvent.discoverResourceMeta, AuthEvent.discoverAuthMeta] ci := by
      cases hc : p.clientInfo with
      | some ci => exact ⟨ci, p, rfl, by simp [customAuth, hdc, clientInformation, hc]⟩
      | none =>
        exact ⟨fabricatedClientInfo cfg, { p with clientInfo := some (fabricatedClientInfo cfg) },
          rfl, by simp [customAuth, hdc, clientInformation, hc]⟩
    obtain ⟨ci, p1, hp1, heq⟩ := hstep
    rw [heq]
    cases hr : o.refreshResult with
    | some toks =>
      have hev : customAuthAfterClient p1 opts o
          [AuthEvent.discoverResourceMeta, AuthEvent.discoverAuthMeta] ci =
          { result := Except.ok AuthOutcome.authorized
            provider := { p1 with tokens := some toks }
            events := [AuthEvent.discoverResourceMeta, AuthEvent.discoverAuthMeta,
              AuthEvent.refreshCall rt] } := by
        simp [customAuthAfterClient, hcode, hp1, htok, hrt, hr]
      rw [hev]
      refine ⟨rfl, ?_⟩
      intro m hm
      refine ⟨?_, ?_⟩
      · intro tk htk
        exact ⟨rfl, rfl, rfl, rfl⟩
      · intro hnone
        simp at hnone
    | none =>
      have hev : customAuthAfterClient p1 opts o
          [AuthEvent.discoverResourceMeta, AuthEvent.discoverAuthMeta] ci =
          startAuthFlow p1 opts o
            [AuthEvent.discoverResourceMeta, AuthEvent.discoverAuthMeta,
              AuthEvent.refreshCall rt] ci := by
        simp [customAuthAfterClient, hcode, hp1, htok, hrt, hr]
      rw [hev]
      refine ⟨?_, ?_⟩
      · simp [startAuthFlow, noAuthorizeBeforeRefresh]
      · intro m hm
        refine ⟨?_, ?_⟩
        · intro tk htk
          simp at htk
        · intro _
          refine ⟨?_, ?_, ?_⟩
          · simp [startAuthFlow]
          · simp [startAuthFlow, countAuthorize]
          · simp [startAuthFlow, countRefresh]

/-- C3 witness: the refresh fast path at a concrete provider holding a
refresh token, with a healthy authorization server. -/
theorem refresh_token_fast_path_witness :
    refreshProvider.tokens = some sampleTokens ∧
    sampleTokens.refresh_token = some "rt0" ∧
    attemptOpts.authorizationCode = none ∧
    (noAuthorizeBeforeRefresh (customAuth refreshProvider sampleConfig attemptOpts
        (goodOracle "s1" "v1")).events = true ∧
    (∀ m : String,
      discoverOAuthMetadata (goodOracle "s1" "v1").oauthEndpoint
        (goodOracle "s1" "v1").openidEndpoint = DiscoverResult.ok m →
      ((∀ tk : OAuthTokens, (goodOracle "s1" "v1").refreshResult = some tk →
        (customAuth refreshProvider sampleConfig attemptOpts
            (goodOracle "s1" "v1")).result = Except.ok AuthOutcome.authorized ∧
        countAuthorize (customAuth refreshProvider sampleConfig attemptOpts
            (goodOracle "s1" "v1")).events = 0 ∧
        countBrowser (customAuth refreshProvider sampleConfig attemptOpts
            (goodOracle "s1" "v1")).events = 0 ∧
        countRefresh (customAuth refreshProvider sampleConfig attemptOpts
            (goodOracle "s1" "v1")).events = 1) ∧
      ((goodOracle "s1" "v1").refreshResult = none →
        (customAuth refreshProvider sampleConfig attemptOpts
            (goodOracle "s1" "v1")).result = Except.ok AuthOutcome.redirect ∧
        countAuthorize (customAuth refreshProvider sampleConfig attemptOpts
            (goodOracle "s1" "v1")).events = 1 ∧
        countRefresh (customAuth refreshProvider sampleConfig attemptOpts
            (goodOracle "s1" "v1")).events = 1)))) :=
  ⟨rfl, rfl, rfl,
    refresh_token_fast_path refreshProvider sampleConfig attemptOpts (goodOracle "s1" "v1")
      sampleTokens "rt0" rfl rfl rfl⟩

/-- Auxiliary: in a run with no stored tokens and no authorization code
that reaches the redirect flow, the single authorize URL carries the
options scope, the empty string coerced to an absent parameter. -/
theorem authorizeScopes_customAuth
    (p : ProviderState) (cfg : Config) (opts : AuthOptions) (o : AuthOracle) (m : String)
    (hd : discoverOAuthMetadata o.oauthEndpoint o.openidEndpoint = DiscoverResult.ok m)
    (hp : p.tokens = none) (hc : opts.authorizationCode = none) :
    authorizeScopes (customAuth p cfg opts o).events =
      [if opts.scope = "" then none else some opts.scope] := by
  cases hci : p.clientInfo with
  | some ci =>
    simp [customAuth, hd, clientInformation, hci, customAuthAfterClient, hc, hp,
      startAuthFlow, authorizeScopes]
  | none =>
    simp [customAuth, hd, clientInformation, hci, customAuthAfterClient, hc, hp,
      startAuthFlow, authorizeScopes]

/-- C8 counterexample: no configured scopes and a discovered empty scope
list join to the empty string, and the constructed authorize URL then has
no scope parameter at all rather than a scope equal to the empty join. -/
theorem scope_empty_omitted_counterexample :
    String.intercalate " " (requestedScopes noCredsConfig emptyScopesMeta) = "" ∧
    authorizeScopes (customAuth initialProvider noCredsConfig
        (connectScopeOpts noCredsConfig emptyScopesMeta) (goodOracle "s1" "v1")).events =
      [none] ∧
    (none : Option String) ≠ some "" :=
  ⟨rfl, rfl, by decide⟩

/-- C8 amended: the scope parameter of the constructed authorize URL is
the configured scopes joined with single spaces when scopes are configured
and the join is nonempty, else the discovered scopes joined with single
spaces when that join is nonempty; when the joined value of the selected
scope list is empty, the parameter is omitted instead of set to the empty
string. -/
theorem authorization_scope_selection
    (cfg : Config) (rm : ResourceMetadata) (p : ProviderState) (o : AuthOracle)
    (l : List String) (m : String)
    (hd : discoverOAuthMetadata o.oauthEndpoint o.openidEndpoint = DiscoverResult.ok m)
    (hp : p.tokens = none) :
    (cfg.scopes ≠ [] → String.intercalate " " cfg.scopes ≠ "" →
      authorizeScopes (customAuth p cfg (connectScopeOpts cfg rm) o).events =
        [some (String.intercalate " " cfg.scopes)]) ∧
    (cfg.scopes = [] → rm.scopes_supported = some l → String.intercalate " " l ≠ "" →
      authorizeScopes (customAuth p cfg (connectScopeOpts cfg rm) o).events =
        [some (String.intercalate " " l)]) ∧
    (String.intercalate " " (requestedScopes cfg rm) = "" →
      authorizeScopes (customAuth p cfg (connectScopeOpts cfg rm) o).events = [none]) := by
  have base := authorizeScopes_customAuth p cfg (connectScopeOpts cfg rm) o m hd hp rfl
  refine ⟨?_, ?_, ?_⟩
  · intro h1 h2
    rw [base]
    have hreq : requestedScopes cfg rm = cfg.scopes := by
      unfold requestedScopes
      rw [if_pos (List.length_pos.mpr h1)]
    simp [connectScopeOpts, hreq, h2]
  · intro h1 h2 h3
    rw [base]
    have hreq : requestedScopes cfg rm = l := by
      simp [requestedScopes, h1, h2]
    simp [connectScopeOpts, hreq, h3]
  · intro h0
    rw [base]
    simp [connectScopeOpts, h0]

/-- C8 witness: the specification scenario, discovered scopes read and
write with no configured scopes, yields the scope parameter read write. -/
theorem authorization_scope_selection_witness :
    discoverOAuthMetadata (goodOracle "s1" "v1").oauthEndpoint
        (goodOracle "s1" "v1").openidEndpoint = DiscoverResult.ok "md" ∧
    initialProvider.tokens = none ∧
    noCredsConfig.scopes = [] ∧
    specScopesMeta.scopes_supported = some ["read", "write"] ∧
    String.intercalate " " ["read", "write"] ≠ "" ∧
    authorizeScopes (customAuth initialProvider noCredsConfig
        (connectScopeOpts noCredsConfig specScopesMeta) (goodOracle "s1" "v1")).events =
      [some (String.intercalate " " ["read", "write"])] :=
  ⟨rfl, rfl, rfl, rfl, by decide,
    ((authorization_scope_selection noCredsConfig specScopesMeta initialProvider
        (goodOracle "s1" "v1") ["read", "write"] "md" rfl rfl).2.1) rfl rfl (by decide)⟩
